import Mathlib

/-!
Verification development for the memory piece store: tag codec, PieceStore
(CRUD + filtered semantic search over a vector index), and the RAG pipeline.

JavaScript strings that the code inspects character by character (the tag
metadata field) are embedded as lists of characters; opaque payloads
(piece content, ids, model names, chat text) stay as Lean strings.
External collaborators (the Chroma vector index, the Ollama embedding and
generation backends) are passed in as oracle functions returning Except,
and the number of calls made to each is tracked explicitly in the state.
-/

/-- A JavaScript string viewed as its list of characters. -/
abbrev JStr := List Char

/-- From src/store.ts: `"," + tags.join(",") + ","`. -/
def encodeTags (tags : List JStr) : JStr :=
  [','] ++ List.intercalate [','] tags ++ [',']

/-- From src/store.ts: `encoded.slice(1, -1).split(",").filter(Boolean)`.
`slice(1, -1)` drops the first and last character; `filter(Boolean)`
discards empty segments. -/
def decodeTags (encoded : JStr) : List JStr :=
  (((encoded.drop 1).dropLast).splitOn ',').filter (fun s => !s.isEmpty)

/-- The unit of stored knowledge (src/types.ts). Tag strings are kept as
character lists because the codec and the filter predicates inspect them
character-wise. -/
structure Piece where
  id : String
  content : String
  tags : List JStr
deriving DecidableEq, Repr

/-- A scored search hit (src/types.ts). Scores are embedded as rationals. -/
structure QueryResult where
  piece : Piece
  score : ℚ
deriving DecidableEq, Repr

/-- Result of the RAG pipeline (src/types.ts). -/
structure RagResult where
  answer : String
  sources : List QueryResult
deriving DecidableEq, Repr

/-- Options of queryPieces and RagPipeline.query (src/types.ts). `none`
stands for an omitted field. -/
structure QueryOptions where
  tags : Option (List JStr) := none
  topK : Option Nat := none
deriving DecidableEq, Repr

/-- The metadata object stored with a piece in the index; the `tags` field
may be absent (src/store.ts reads it defensively with `?? ""`). -/
structure PieceMeta where
  tags : Option JStr
deriving DecidableEq, Repr

/-- One record of the vector index: embedding, document and metadata, the
latter two nullable at the boundary. -/
structure StoredRec where
  embedding : List ℚ
  document : Option String
  meta : Option PieceMeta
deriving DecidableEq, Repr

/-- The Chroma collection, embedded as an association list from id to
record. -/
abbrev ChromaCollection := List (String × StoredRec)

/-- Chroma collection.get with a single id: the first record stored under
that id, if any. -/
def findRec (col : ChromaCollection) (id : String) : Option StoredRec :=
  match col with
  | [] => none
  | p :: rest => if p.1 = id then some p.2 else findRec rest id

/-- The mutable state of a PieceStore (src/store.ts): the collection handle
(`null` before init), plus explicit call counters for the two external
collaborators: `embedCalls` counts EmbeddingClient.embed calls and
`createCalls` counts ChromaClient.getOrCreateCollection calls. `uuidCount`
indexes into the uuid supply passed to addPiece. -/
structure StoreState where
  collection : Option ChromaCollection
  uuidCount : Nat
  embedCalls : Nat
  createCalls : Nat
deriving DecidableEq, Repr

/-- The error thrown by PieceStore.getCollection (src/store.ts). -/
def notInitMsg : String := "PieceStore not initialized. Call init() first."

/-- PieceStore.init (src/store.ts): one getOrCreateCollection call; on
success the handle is stored, on failure the error propagates and the
handle keeps its previous value. The outcome of the call is the oracle
argument `createResult`. -/
def PieceStore.init (createResult : Except String ChromaCollection)
    (st : StoreState) : Except String Unit × StoreState :=
  let st1 := { st with createCalls := st.createCalls + 1 }
  match createResult with
  | .ok col => (.ok (), { st1 with collection := some col })
  | .error e => (.error e, st1)

/-- PieceStore.getCollection (src/store.ts): throws when init has not
succeeded yet. -/
def PieceStore.getCollection (st : StoreState) : Except String ChromaCollection :=
  match st.collection with
  | none => .error notInitMsg
  | some col => .ok col

/-- PieceStore.addPiece (src/store.ts): guard on initialization, draw a
fresh id from the uuid supply, embed the content, then persist
`(id, embedding, content, encodeTags tags)` and return the Piece. -/
def PieceStore.addPiece (uuid : Nat → String)
    (embedFn : String → Except String (List ℚ))
    (content : String) (tags : List JStr) (st : StoreState) :
    Except String Piece × StoreState :=
  match PieceStore.getCollection st with
  | .error e => (.error e, st)
  | .ok col =>
    let id := uuid st.uuidCount
    let st1 := { st with
      uuidCount := st.uuidCount + 1
      embedCalls := st.embedCalls + 1 }
    match embedFn content with
    | .error e => (.error e, st1)
    | .ok embedding =>
      (.ok { id := id, content := content, tags := tags },
       { st1 with collection := some (col ++
           [(id, { embedding := embedding, document := some content,
                   meta := some { tags := some (encodeTags tags) } })]) })

/-- PieceStore.getPiece (src/store.ts): fetch by id; absent id gives the
`null` sentinel; missing document or metadata default to empty. -/
def PieceStore.getPiece (id : String) (st : StoreState) :
    Except String (Option Piece) × StoreState :=
  match PieceStore.getCollection st with
  | .error e => (.error e, st)
  | .ok col =>
    match findRec col id with
    | none => (.ok none, st)
    | some r =>
      (.ok (some { id := id, content := r.document.getD "",
                   tags := decodeTags ((r.meta.bind PieceMeta.tags).getD []) }),
       st)

/-- PieceStore.deletePiece (src/store.ts): delete by id (a no-op when the
id is absent). -/
def PieceStore.deletePiece (id : String) (st : StoreState) :
    Except String Unit × StoreState :=
  match PieceStore.getCollection st with
  | .error e => (.error e, st)
  | .ok col =>
    (.ok (), { st with collection := some (col.filter (fun p => p.1 != id)) })

/-- Chroma collection.update semantics: apply `f` to the record stored
under `id`, leaving every other record untouched. -/
def updateRec (col : ChromaCollection) (id : String)
    (f : StoredRec → StoredRec) : ChromaCollection :=
  col.map (fun p => if p.1 = id then (p.1, f p.2) else p)

/-- PieceStore.updatePiece (src/store.ts): read the existing piece (null
sentinel when absent, nothing mutated); resolve new content and tags from
the given or the existing values; always persist the re-encoded tags; only
when content was given, re-embed and persist document and embedding too. -/
def PieceStore.updatePiece (embedFn : String → Except String (List ℚ))
    (id : String) (content? : Option String) (tags? : Option (List JStr))
    (st : StoreState) : Except String (Option Piece) × StoreState :=
  match PieceStore.getCollection st with
  | .error e => (.error e, st)
  | .ok col =>
    match findRec col id with
    | none => (.ok none, st)
    | some r =>
      let existingContent := r.document.getD ""
      let existingTags := decodeTags ((r.meta.bind PieceMeta.tags).getD [])
      let newContent := content?.getD existingContent
      let newTags := tags?.getD existingTags
      match content? with
      | none =>
        (.ok (some { id := id, content := newContent, tags := newTags }),
         { st with collection := some (updateRec col id (fun rec =>
             { rec with meta := some { tags := some (encodeTags newTags) } })) })
      | some _ =>
        match embedFn newContent with
        | .error e => (.error e, { st with embedCalls := st.embedCalls + 1 })
        | .ok embedding =>
          (.ok (some { id := id, content := newContent, tags := newTags }),
           { st with
             embedCalls := st.embedCalls + 1
             collection := some (updateRec col id (fun rec =>
               { rec with
                 document := some newContent
                 embedding := embedding
                 meta := some { tags := some (encodeTags newTags) } })) })

/-- The where-filter shapes queryPieces builds (src/store.ts): a single
single contains clause on the tags field, or `$and` of one such
clause per tag. -/
inductive WhereClause where
  | tagsContains (sub : JStr)
  | andContains (subs : List JStr)
deriving DecidableEq, Repr

/-- Filter construction in PieceStore.queryPieces (src/store.ts): no filter
for absent or empty `tags`; one contains-clause for a single tag; `$and`
of the per-tag contains-clauses otherwise. Each tag `t` is looked up as
the delimited substring `,t,`. -/
def buildWhere (tags? : Option (List JStr)) : Option WhereClause :=
  match tags? with
  | none => none
  | some tags =>
    if tags.length = 0 then none
    else if tags.length = 1 then
      some (.tagsContains ([','] ++ tags.headD [] ++ [',']))
    else
      some (.andContains (tags.map (fun tag => [','] ++ tag ++ [','])))

/-- The `$contains` operator of the index: literal substring search. -/
def chromaContains (doc sub : JStr) : Bool := decide (sub <:+: doc)

/-- Evaluation of a where-clause against the stored tags field. -/
def evalWhere (w : WhereClause) (tagsField : JStr) : Bool :=
  match w with
  | .tagsContains sub => chromaContains tagsField sub
  | .andContains subs => subs.all (fun sub => chromaContains tagsField sub)

/-- The raw response of collection.query as consumed by queryPieces
(src/store.ts): one row per query embedding, every field nullable at the
boundary. -/
structure ChromaQueryResponse where
  ids : List (List String)
  documents : List (List (Option String))
  metadatas : List (List (Option PieceMeta))
  distances : Option (List (List ℚ))
deriving DecidableEq, Repr

/-- The result-mapping loop of PieceStore.queryPieces (src/store.ts):
take row 0 of each field (defaulting to empty), then for each returned id
build a QueryResult with `score = 1 - (distances[i] ?? 0)`, defaulting
missing documents to "" and missing metadata to no tags. -/
def mapQueryResponse (results : ChromaQueryResponse) : List QueryResult :=
  let ids := results.ids.headD []
  let documents := results.documents.headD []
  let metadatas := results.metadatas.headD []
  let distances := (results.distances.getD []).headD []
  (List.range ids.length).map (fun i =>
    { piece := { id := ids.getD i "",
                 content := (documents.getD i none).getD "",
                 tags := decodeTags
                   (((metadatas.getD i none).bind PieceMeta.tags).getD []) },
      score := 1 - distances.getD i 0 })

/-- The effective distance used for result `i`: entry `i` of row 0 of the
reported distances, defaulting to 0 when the index omits it. -/
def effDist (results : ChromaQueryResponse) (i : Nat) : ℚ :=
  ((results.distances.getD []).headD []).getD i 0

/-- PieceStore.queryPieces (src/store.ts): guard on initialization, embed
the query, build the optional filter, run the index query (`runQuery`
oracle, given the filter, `topK` and the query embedding), and map the
response. Errors propagate unchanged. -/
def PieceStore.queryPieces (embedFn : String → Except String (List ℚ))
    (runQuery : Option WhereClause → Nat → List ℚ →
      Except String ChromaQueryResponse)
    (query : String) (options : QueryOptions) (st : StoreState) :
    Except String (List QueryResult) × StoreState :=
  match PieceStore.getCollection st with
  | .error e => (.error e, st)
  | .ok _col =>
    let topK := options.topK.getD 10
    let st1 := { st with embedCalls := st.embedCalls + 1 }
    match embedFn query with
    | .error e => (.error e, st1)
    | .ok queryEmbedding =>
      match runQuery (buildWhere options.tags) topK queryEmbedding with
      | .error e => (.error e, st1)
      | .ok results => (.ok (mapQueryResponse results), st1)

/-- The fixed apology answer of RagPipeline.query (src/rag.ts). -/
def ragApology : String :=
  "I don\x27t have enough context to answer this question. " ++
  "No relevant pieces were found in the knowledge base."

/-- The fixed system instruction of RagPipeline.query (src/rag.ts). -/
def ragSystemPrompt : String :=
  "You are a helpful assistant. Answer the user\x27s question based on the provided context. " ++
  "If the context does not contain enough information, say so. " ++
  "Cite sources by their number when relevant."

/-- The context block of RagPipeline.query (src/rag.ts): each source in
order, numbered from 1, with its comma-joined tags and its content,
entries separated by blank lines. -/
def ragContextBlock (sources : List QueryResult) : String :=
  String.intercalate "\n\n" ((List.range sources.length).map (fun i =>
    let s := sources.getD i { piece := { id := "", content := "", tags := [] },
                              score := 0 }
    "[" ++ toString (i + 1) ++ "] (tags: " ++
      String.mk (List.intercalate [',', ' '] s.piece.tags) ++ ")\n" ++
      s.piece.content))

/-- A chat message sent to the generation backend. -/
structure ChatMessage where
  role : String
  content : String
deriving DecidableEq, Repr

/-- The exactly-two messages RagPipeline.query sends (src/rag.ts). -/
def ragMessages (sources : List QueryResult) (query : String) :
    List ChatMessage :=
  [{ role := "system", content := ragSystemPrompt },
   { role := "user", content := "Context:\n" ++ ragContextBlock sources ++
       "\n\nQuestion: " ++ query }]

/-- RagPipeline.query (src/rag.ts): retrieve via the store, short-circuit
to the fixed apology on zero sources, otherwise chat with the two built
messages. The second component counts the calls made to the generation
backend. `storeQuery` is the store retrieval oracle and `chat` the
generation oracle (model name and messages to completion). -/
def RagPipeline.query
    (storeQuery : String → QueryOptions → Except String (List QueryResult))
    (chat : String → List ChatMessage → Except String String)
    (model : String) (query : String) (options : QueryOptions) :
    Except String RagResult × Nat :=
  match storeQuery query options with
  | .error e => (.error e, 0)
  | .ok sources =>
    if sources.length = 0 then
      (.ok { answer := ragApology, sources := [] }, 0)
    else
      match chat model (ragMessages sources query) with
      | .error e => (.error e, 1)
      | .ok content => (.ok { answer := content, sources := sources }, 1)

/-- State of the cached-promise initialization guard of the transport
adapters (ensureStoreInitialized in src/mcp.ts, the middleware in
src/server.ts): the settled outcome of the cached `initPromise` (none when
the slot is clear) and the count of getOrCreateCollection calls issued by
the inits it started. -/
structure EnsureState where
  initOutcome : Option (Except String Unit)
  createCalls : Nat
deriving Repr

/-- One full run of ensureStoreInitialized (src/mcp.ts) with no
interleaving: an empty slot starts one init (whose outcome is
`attemptOutcome` at the current attempt index) and caches its promise; a
cached success is reused without a new call; awaiting a failure clears the
slot and rethrows so the next call retries. -/
def ensureStoreInitialized (attemptOutcome : Nat → Except String Unit)
    (s : EnsureState) : Except String Unit × EnsureState :=
  match s.initOutcome with
  | some (.ok _) => (.ok (), s)
  | some (.error e) => (.error e, { s with initOutcome := none })
  | none =>
    let outcome := attemptOutcome s.createCalls
    let s1 : EnsureState := { initOutcome := some outcome,
                              createCalls := s.createCalls + 1 }
    match outcome with
    | .ok _ => (.ok (), s1)
    | .error e => (.error e, { s1 with initOutcome := none })

/-- State for the concurrent-arrival scenario: whether the adapter already
holds an `initPromise` (pending or settled) and how many inits were
started. -/
structure McpInitState where
  hasInitPromise : Bool
  createCalls : Nat
deriving DecidableEq, Repr

/-- The synchronous prefix of one ensureStoreInitialized call (src/mcp.ts):
`if (!this.initPromise) this.initPromise = this.store.init()`. Creating
the promise runs store.init up to its first await, which already issues
the getOrCreateCollection call; callers arriving while it is in flight
see the non-null slot and start nothing. -/
def beginEnsureInit (s : McpInitState) : McpInitState :=
  if s.hasInitPromise then s
  else { hasInitPromise := true, createCalls := s.createCalls + 1 }

/-- The default QueryResult used when indexing result lists out of range
in the statements below. -/
def qrDefault : QueryResult :=
  { piece := { id := "", content := "", tags := [] }, score := 0 }

theorem decodeTags_encodeTags (ts : List JStr)
    (h : ∀ t ∈ ts, t ≠ [] ∧ ',' ∉ t) :
    decodeTags (encodeTags ts) = ts := by
  unfold decodeTags encodeTags
  rcases eq_or_ne ts [] with rfl | hne
  · rfl
  · rw [List.append_assoc, List.singleton_append, List.drop_one,
      List.tail_cons, List.dropLast_concat]
    rw [show (List.intercalate [','] ts).splitOn ',' = ts from
      List.splitOn_intercalate ts ',' (fun l hl => (h l hl).2) hne]
    apply List.filter_eq_self.mpr
    intro a ha
    simpa [List.isEmpty_iff] using (h a ha).1

theorem mem_splitOn_not_mem {α : Type} [DecidableEq α] (a : α) :
    ∀ (l : List α), ∀ x ∈ l.splitOn a, a ∉ x := by
  intro l
  induction l with
  | nil =>
    intro x hx
    simp only [List.splitOn_nil, List.mem_singleton] at hx
    simp [hx]
  | cons c rest ih =>
    intro x hx
    rw [show (c :: rest).splitOn a = (c :: rest).splitOnP (· == a) from rfl,
      List.splitOnP_cons] at hx
    by_cases hc : c = a
    · rw [if_pos (by simp [hc])] at hx
      rcases List.mem_cons.mp hx with rfl | hx
      · simp
      · exact ih x hx
    · rw [if_neg (by simp [hc])] at hx
      rcases hsp : rest.splitOn a with _ | ⟨hd, tl⟩
      · exact absurd hsp (List.splitOnP_ne_nil _ _)
      · rw [show rest.splitOnP (· == a) = hd :: tl from hsp,
          List.modifyHead_cons] at hx
        rcases List.mem_cons.mp hx with rfl | hx
        · intro hmem
          rcases List.mem_cons.mp hmem with rfl | hmem
          · exact hc rfl
          · exact ih hd (hsp ▸ List.mem_cons_self hd tl) hmem
        · exact ih x (hsp ▸ List.mem_cons_of_mem hd hx)

theorem mem_decodeTags (s : JStr) : ∀ x ∈ decodeTags s, x ≠ [] ∧ ',' ∉ x := by
  intro x hx
  unfold decodeTags at hx
  rw [List.mem_filter] at hx
  refine ⟨by simpa [List.isEmpty_iff] using hx.2, ?_⟩
  exact mem_splitOn_not_mem ',' _ x hx.1

theorem decodeTags_encodeTags_decodeTags (s : JStr) :
    decodeTags (encodeTags (decodeTags s)) = decodeTags s :=
  decodeTags_encodeTags _ (mem_decodeTags s)

theorem findRec_append_none {l1 l2 : ChromaCollection} {k : String}
    (h : findRec l1 k = none) : findRec (l1 ++ l2) k = findRec l2 k := by
  induction l1 with
  | nil => simp
  | cons p rest ih =>
    rw [List.cons_append]
    simp only [findRec] at h ⊢
    by_cases hk : p.1 = k
    · simp [hk] at h
    · rw [if_neg hk] at h ⊢
      exact ih h

theorem findRec_cons_self (p : String × StoredRec) (rest : ChromaCollection) :
    findRec (p :: rest) p.1 = some p.2 := by
  simp [findRec]

theorem findRec_updateRec (col : ChromaCollection) (id : String)
    (f : StoredRec → StoredRec) :
    findRec (updateRec col id f) id = (findRec col id).map f := by
  induction col with
  | nil => simp [findRec, updateRec]
  | cons p rest ih =>
    simp only [updateRec, List.map_cons] at ih ⊢
    by_cases hk : p.1 = id
    · rw [if_pos hk]
      simp [findRec, hk]
    · rw [if_neg hk]
      simp only [findRec, if_neg hk]
      exact ih

theorem beginEnsureInit_of_has (s : McpInitState) (h : s.hasInitPromise = true) :
    beginEnsureInit s = s := by
  simp [beginEnsureInit, h]

theorem beginEnsureInit_iterate_fixed (c : Nat) :
    ∀ n : Nat, beginEnsureInit^[n] { hasInitPromise := true, createCalls := c } =
      { hasInitPromise := true, createCalls := c } := by
  intro n
  induction n with
  | zero => rfl
  | succ n ih =>
    rw [Function.iterate_succ_apply, beginEnsureInit_of_has _ rfl, ih]

theorem mapQueryResponse_getD (resp : ChromaQueryResponse) (i : Nat)
    (hi : i < (resp.ids.headD []).length) :
    (mapQueryResponse resp).getD i qrDefault =
      { piece := { id := (resp.ids.headD []).getD i "",
                   content := ((resp.documents.headD []).getD i none).getD "",
                   tags := decodeTags
                     ((((resp.metadatas.headD []).getD i none).bind
                       PieceMeta.tags).getD []) },
        score := 1 - effDist resp i } := by
  unfold mapQueryResponse effDist
  rw [List.getD_eq_getElem?_getD, List.getElem?_map, List.getElem?_range hi]
  rfl

theorem mapQueryResponse_length (resp : ChromaQueryResponse) :
    (mapQueryResponse resp).length = (resp.ids.headD []).length := by
  simp [mapQueryResponse]

/-- C1: zero retrieved pieces short-circuit to the fixed apology with no
generation call; otherwise the backend completion is the answer and the
retrieved results are the sources, unchanged and in order, with exactly
one generation call. -/
theorem claim_C1_rag_short_circuit :
    ∀ (storeQuery : String → QueryOptions → Except String (List QueryResult))
      (chat : String → List ChatMessage → Except String String)
      (model query : String) (options : QueryOptions),
      (storeQuery query options = .ok [] →
        RagPipeline.query storeQuery chat model query options =
          (.ok { answer := ragApology, sources := [] }, 0))
      ∧ (∀ (sources : List QueryResult) (answer : String),
          storeQuery query options = .ok sources → sources ≠ [] →
          chat model (ragMessages sources query) = .ok answer →
          RagPipeline.query storeQuery chat model query options =
            (.ok { answer := answer, sources := sources }, 1)) := by
  intro storeQuery chat model query options
  constructor
  · intro h
    simp [RagPipeline.query, h]
  · intro sources answer hq hne hchat
    simp [RagPipeline.query, hq, List.length_eq_zero, hne, hchat]

theorem claim_C1_rag_short_circuit_witness :
    RagPipeline.query (fun _ _ => .ok []) (fun _ _ => .ok "A") "m" "q" {} =
      (.ok { answer := ragApology, sources := [] }, 0)
    ∧ RagPipeline.query
        (fun _ _ => .ok [{ piece := { id := "1", content := "d", tags := [] },
                           score := 1 }])
        (fun _ _ => .ok "A") "m" "q" {} =
      (.ok { answer := "A",
             sources := [{ piece := { id := "1", content := "d", tags := [] },
                           score := 1 }] }, 1) :=
  ⟨(claim_C1_rag_short_circuit _ _ "m" "q" {}).1 rfl,
   (claim_C1_rag_short_circuit _ _ "m" "q" {}).2 _ "A" rfl (by simp) rfl⟩

/-- C2 counterexample: two direct calls to PieceStore.init issue two
getOrCreateCollection calls, not one — the store itself does not coalesce
repeated initialization. -/
theorem claim_C2_counterexample :
    (PieceStore.init (.ok [])
      (PieceStore.init (.ok [])
        { collection := none, uuidCount := 0, embedCalls := 0,
          createCalls := 0 }).2).2.createCalls ≠ 1 := by
  decide

/-- C2 (amended): the coalescing lives in the transport adapters, whose
cached-promise guard makes N operations arriving before the init promise
resolves issue exactly one creation call, and makes later calls after a
cached success issue none. -/
theorem claim_C2_init_coalescing :
    (∀ n : Nat,
      (beginEnsureInit^[n + 1]
        { hasInitPromise := false, createCalls := 0 }).createCalls = 1)
    ∧ (∀ (att : Nat → Except String Unit), att 0 = .ok () → ∀ n : Nat,
        ((fun s => (ensureStoreInitialized att s).2)^[n + 1]
          { initOutcome := none, createCalls := 0 }).createCalls = 1) := by
  constructor
  · intro n
    rw [Function.iterate_succ_apply]
    have h1 : beginEnsureInit { hasInitPromise := false, createCalls := 0 } =
        { hasInitPromise := true, createCalls := 1 } := rfl
    rw [h1, beginEnsureInit_iterate_fixed]
  · intro att h0 n
    rw [Function.iterate_succ_apply]
    have h1 : (ensureStoreInitialized att
        { initOutcome := none, createCalls := 0 }).2 =
        { initOutcome := some (.ok ()), createCalls := 1 } := by
      simp [ensureStoreInitialized, h0]
    rw [h1]
    induction n with
    | zero => rfl
    | succ n ih =>
      rw [Function.iterate_succ_apply]
      have h2 : (ensureStoreInitialized att
          { initOutcome := some (.ok ()), createCalls := 1 }).2 =
          { initOutcome := some (.ok ()), createCalls := 1 } := rfl
      rw [h2, ih]

theorem claim_C2_init_coalescing_witness :
    ((fun s => (ensureStoreInitialized (fun _ => .ok ()) s).2)^[3]
      { initOutcome := none, createCalls := 0 }).createCalls = 1 :=
  claim_C2_init_coalescing.2 (fun _ => .ok ()) rfl 2

/-- C3 counterexample: the list holding one empty tag has no entry
containing the delimiter, yet it does not round-trip: the empty segment
is dropped on decode. -/
theorem claim_C3_counterexample :
    ',' ∉ ([] : JStr) ∧ decodeTags (encodeTags [([] : JStr)]) ≠ [([] : JStr)] := by
  decide

/-- C3 (amended): round-trip holds for tag lists whose entries are nonempty
and comma-free; encodeTags [] is ",," and decodes to []. -/
theorem claim_C3_tag_roundtrip :
    (∀ ts : List JStr, (∀ t ∈ ts, t ≠ [] ∧ ',' ∉ t) →
      decodeTags (encodeTags ts) = ts)
    ∧ encodeTags [] = [',', ',']
    ∧ decodeTags (encodeTags []) = [] :=
  ⟨decodeTags_encodeTags, by decide, by decide⟩

theorem claim_C3_tag_roundtrip_witness :
    decodeTags (encodeTags ["alpha".toList, "beta".toList]) =
      ["alpha".toList, "beta".toList] :=
  claim_C3_tag_roundtrip.1 _ (by decide)

/-- C4 counterexample: the mapping neither clamps scores into [0,1] nor
re-sorts: a reported distance of 3/2 yields the negative score -1/2, and
distances reported out of order yield increasing scores. -/
theorem claim_C4_counterexample :
    ((mapQueryResponse
        { ids := [["a"]], documents := [[some "d"]], metadatas := [[none]],
          distances := some [[(3 : ℚ) / 2]] }).getD 0 qrDefault).score < 0
    ∧ ((mapQueryResponse
        { ids := [["a", "b"]], documents := [[some "d", some "e"]],
          metadatas := [[none, none]],
          distances := some [[(1 : ℚ) / 2, (1 : ℚ) / 5]] }).getD 0
          qrDefault).score <
        ((mapQueryResponse
          { ids := [["a", "b"]], documents := [[some "d", some "e"]],
            metadatas := [[none, none]],
            distances := some [[(1 : ℚ) / 2, (1 : ℚ) / 5]] }).getD 1
            qrDefault).score := by
  constructor
  · norm_num [mapQueryResponse, List.range_succ, decodeTags]
  · norm_num [mapQueryResponse, List.range_succ, decodeTags]

/-- C4 (amended): the score of each result equals 1 minus the effective reported
distance (0 when omitted); whenever the index reports distances inside
[0,1] the scores lie in [0,1], and whenever it reports them in
non-decreasing order (nearest first) the scores are non-increasing; the
mapping itself neither clamps nor re-sorts. -/
theorem claim_C4_score_derivation :
    ∀ resp : ChromaQueryResponse,
      (mapQueryResponse resp).length = (resp.ids.headD []).length
      ∧ (∀ i, i < (mapQueryResponse resp).length →
          ((mapQueryResponse resp).getD i qrDefault).score = 1 - effDist resp i)
      ∧ ((∀ i, i < (resp.ids.headD []).length →
            0 ≤ effDist resp i ∧ effDist resp i ≤ 1) →
          ∀ q ∈ mapQueryResponse resp, 0 ≤ q.score ∧ q.score ≤ 1)
      ∧ ((∀ i j, i ≤ j → j < (resp.ids.headD []).length →
            effDist resp i ≤ effDist resp j) →
          ∀ i j, i ≤ j → j < (mapQueryResponse resp).length →
            ((mapQueryResponse resp).getD j qrDefault).score ≤
              ((mapQueryResponse resp).getD i qrDefault).score) := by
  intro resp
  refine ⟨mapQueryResponse_length resp, ?_, ?_, ?_⟩
  · intro i hi
    rw [mapQueryResponse_getD resp i (by rwa [mapQueryResponse_length] at hi)]
  · intro hd q hq
    unfold mapQueryResponse at hq
    rcases List.mem_map.mp hq with ⟨i, hi, rfl⟩
    rcases List.mem_range.mp hi with hilt
    have := hd i hilt
    simp only [effDist] at this
    dsimp only
    constructor
    · linarith [this.2]
    · linarith [this.1]
  · intro hsorted i j hij hj
    have hj2 : j < (resp.ids.headD []).length := by
      rwa [mapQueryResponse_length] at hj
    have hi2 : i < (resp.ids.headD []).length := lt_of_le_of_lt hij hj2
    rw [mapQueryResponse_getD resp i hi2, mapQueryResponse_getD resp j hj2]
    have := hsorted i j hij hj2
    simp only
    linarith

theorem claim_C4_score_derivation_witness :
    (∀ q ∈ mapQueryResponse
        { ids := [["id-1", "id-2"]],
          documents := [[some "Doc one", some "Doc two"]],
          metadatas := [[none, none]],
          distances := some [[(2 : ℚ) / 10, (5 : ℚ) / 10]] },
        0 ≤ q.score ∧ q.score ≤ 1)
    ∧ ((mapQueryResponse
          { ids := [["id-1", "id-2"]],
            documents := [[some "Doc one", some "Doc two"]],
            metadatas := [[none, none]],
            distances := some [[(2 : ℚ) / 10, (5 : ℚ) / 10]] }).getD 1
          qrDefault).score ≤
        ((mapQueryResponse
          { ids := [["id-1", "id-2"]],
            documents := [[some "Doc one", some "Doc two"]],
            metadatas := [[none, none]],
            distances := some [[(2 : ℚ) / 10, (5 : ℚ) / 10]] }).getD 0
          qrDefault).score :=
  ⟨(claim_C4_score_derivation _).2.2.1
     (by intro i hi; simp at hi; interval_cases i <;> norm_num [effDist]),
   (claim_C4_score_derivation _).2.2.2
     (by intro i j hij hj; simp at hj; interval_cases j <;>
       interval_cases i <;> norm_num [effDist])
     0 1 (by norm_num) (by norm_num [mapQueryResponse])⟩

/-- C5: a tag-only update makes no embedding call and persists only the
re-encoded new tags, leaving document and embedding of the stored record
unchanged; a content-only update re-embeds and carries the prior (decoded)
tags, both in its result and on a subsequent read; an absent id yields the
not-found sentinel with no mutation at all. -/
theorem claim_C5_update_independence :
    ∀ (embedFn : String → Except String (List ℚ)) (st : StoreState)
      (col : ChromaCollection) (id : String) (r : StoredRec)
      (newTags : List JStr) (newContent : String),
      st.collection = some col →
      (findRec col id = some r →
        PieceStore.updatePiece embedFn id none (some newTags) st =
          (.ok (some { id := id, content := r.document.getD "",
                       tags := newTags }),
           { st with collection := some (updateRec col id (fun rec =>
               { rec with meta := some { tags := some (encodeTags newTags) } })) }))
      ∧ (findRec col id = some r →
          (PieceStore.updatePiece embedFn id none (some newTags) st).2.embedCalls
            = st.embedCalls)
      ∧ (findRec col id = some r → ∀ emb, embedFn newContent = .ok emb →
          PieceStore.updatePiece embedFn id (some newContent) none st =
            (.ok (some { id := id, content := newContent,
                         tags := decodeTags
                           ((r.meta.bind PieceMeta.tags).getD []) }),
             { st with
               embedCalls := st.embedCalls + 1
               collection := some (updateRec col id (fun rec =>
                 { rec with
                   document := some newContent
                   embedding := emb
                   meta := some { tags := some (encodeTags
                     (decodeTags ((r.meta.bind PieceMeta.tags).getD []))) } })) }))
      ∧ (findRec col id = some r → ∀ emb, embedFn newContent = .ok emb →
          (PieceStore.getPiece id
              (PieceStore.updatePiece embedFn id (some newContent) none st).2).1 =
            .ok (some { id := id, content := newContent,
                        tags := decodeTags
                          ((r.meta.bind PieceMeta.tags).getD []) }))
      ∧ (findRec col id = none → ∀ content? tags?,
          PieceStore.updatePiece embedFn id content? tags? st = (.ok none, st)) := by
  intro embedFn st col id r newTags newContent hst
  refine ⟨?_, ?_, ?_, ?_, ?_⟩
  · intro hr
    simp [PieceStore.updatePiece, PieceStore.getCollection, hst, hr]
  · intro hr
    simp [PieceStore.updatePiece, PieceStore.getCollection, hst, hr]
  · intro hr emb hemb
    simp [PieceStore.updatePiece, PieceStore.getCollection, hst, hr, hemb]
  · intro hr emb hemb
    have key : PieceStore.updatePiece embedFn id (some newContent) none st =
        (.ok (some { id := id, content := newContent,
                     tags := decodeTags
                       ((r.meta.bind PieceMeta.tags).getD []) }),
         { st with
           embedCalls := st.embedCalls + 1
           collection := some (updateRec col id (fun rec =>
             { rec with
               document := some newContent
               embedding := emb
               meta := some { tags := some (encodeTags
                 (decodeTags ((r.meta.bind PieceMeta.tags).getD []))) } })) }) := by
      simp [PieceStore.updatePiece, PieceStore.getCollection, hst, hr, hemb]
    rw [key]
    simp only [PieceStore.getPiece, PieceStore.getCollection]
    rw [findRec_updateRec col id, hr]
    simp [decodeTags_encodeTags_decodeTags]
  · intro hr content? tags?
    simp [PieceStore.updatePiece, PieceStore.getCollection, hst, hr]

theorem claim_C5_update_independence_witness :
    (PieceStore.updatePiece (fun _ => .error "no embed calls expected")
        "id1" none (some [['n']])
        { collection := some [("id1",
            { embedding := [5], document := some "Existing content",
              meta := some { tags := some (encodeTags [['o']]) } })],
          uuidCount := 0, embedCalls := 0, createCalls := 0 } =
      (.ok (some { id := "id1", content := "Existing content",
                   tags := [['n']] }),
       { collection := some [("id1",
           { embedding := [5], document := some "Existing content",
             meta := some { tags := some (encodeTags [['n']]) } })],
         uuidCount := 0, embedCalls := 0, createCalls := 0 }))
    ∧ (PieceStore.updatePiece (fun _ => .ok [9]) "id1" (some "New content") none
        { collection := some [("id1",
            { embedding := [5], document := some "Old content",
              meta := some { tags := some (encodeTags ["keep-me".toList]) } })],
          uuidCount := 0, embedCalls := 0, createCalls := 0 } =
      (.ok (some { id := "id1", content := "New content",
                   tags := decodeTags ((some (encodeTags ["keep-me".toList]) :
                     Option JStr).getD []) }),
       { collection := some [("id1",
           { embedding := [9], document := some "New content",
             meta := some { tags := some (encodeTags
               (decodeTags ((some (encodeTags ["keep-me".toList]) :
                 Option JStr).getD []))) } })],
         uuidCount := 0, embedCalls := 1, createCalls := 0 }))
    ∧ (PieceStore.updatePiece (fun _ => .ok [9]) "missing" (some "x") none
        { collection := some [], uuidCount := 0, embedCalls := 0,
          createCalls := 0 } =
      (.ok none,
       { collection := some [], uuidCount := 0, embedCalls := 0,
         createCalls := 0 })) := by
  refine ⟨?_, ?_, ?_⟩
  · have h := (claim_C5_update_independence
      (fun _ => .error "no embed calls expected")
      { collection := some [("id1",
          { embedding := [5], document := some "Existing content",
            meta := some { tags := some (encodeTags [['o']]) } })],
        uuidCount := 0, embedCalls := 0, createCalls := 0 }
      [("id1", { embedding := [5], document := some "Existing content",
                 meta := some { tags := some (encodeTags [['o']]) } })]
      "id1"
      { embedding := [5], document := some "Existing content",
        meta := some { tags := some (encodeTags [['o']]) } }
      [['n']] "unused" rfl).1 (by simp [findRec])
    simpa [updateRec] using h
  · have h := (claim_C5_update_independence (fun _ => .ok [9])
      { collection := some [("id1",
          { embedding := [5], document := some "Old content",
            meta := some { tags := some (encodeTags ["keep-me".toList]) } })],
        uuidCount := 0, embedCalls := 0, createCalls := 0 }
      [("id1", { embedding := [5], document := some "Old content",
                 meta := some { tags := some (encodeTags ["keep-me".toList]) } })]
      "id1"
      { embedding := [5], document := some "Old content",
        meta := some { tags := some (encodeTags ["keep-me".toList]) } }
      [] "New content" rfl).2.2.1 (by simp [findRec]) [9] rfl
    simpa [updateRec] using h
  · exact (claim_C5_update_independence (fun _ => .ok [9])
      { collection := some [], uuidCount := 0, embedCalls := 0,
        createCalls := 0 }
      [] "missing"
      { embedding := [], document := none, meta := none }
      [] "x" rfl).2.2.2.2 rfl (some "x") none

/-- C6: filter construction and substring safety of the sentinel scheme. -/
theorem claim_C6_filter_construction :
    buildWhere none = none
    ∧ buildWhere (some []) = none
    ∧ (∀ t : JStr, buildWhere (some [t]) =
        some (.tagsContains ([','] ++ t ++ [','])))
    ∧ (∀ ts : List JStr, 2 ≤ ts.length →
        buildWhere (some ts) =
          some (.andContains (ts.map (fun t => [','] ++ t ++ [',']))))
    ∧ chromaContains (encodeTags ["start".toList, "music".toList])
        ",art,".toList = false
    ∧ chromaContains (encodeTags ["start".toList, "art".toList, "music".toList])
        ",art,".toList = true := by
  refine ⟨rfl, rfl, ?_, ?_, by decide, by decide⟩
  · intro t
    simp [buildWhere]
  · intro ts h
    rcases ts with _ | ⟨a, _ | ⟨b, rest⟩⟩
    · simp at h
    · simp at h
    · simp [buildWhere]

theorem claim_C6_filter_construction_witness :
    buildWhere (some ["python".toList, "rag".toList]) =
      some (.andContains [",python,".toList, ",rag,".toList]) := by
  have h := claim_C6_filter_construction.2.2.2.1
    ["python".toList, "rag".toList] (by decide)
  simpa using h

/-- C7: every data operation on an uninitialized store fails with the
not-initialized error and leaves the state (collection handle and all
backend call counters) untouched: no backend call is made and the store
never initializes itself. -/
theorem claim_C7_uninitialized_guard :
    ∀ (st : StoreState), st.collection = none →
    ∀ (uuid : Nat → String) (embedFn : String → Except String (List ℚ))
      (runQuery : Option WhereClause → Nat → List ℚ →
        Except String ChromaQueryResponse)
      (content : String) (tags : List JStr) (id : String)
      (content? : Option String) (tags? : Option (List JStr))
      (q : String) (options : QueryOptions),
      PieceStore.addPiece uuid embedFn content tags st = (.error notInitMsg, st)
      ∧ PieceStore.getPiece id st = (.error notInitMsg, st)
      ∧ PieceStore.updatePiece embedFn id content? tags? st =
          (.error notInitMsg, st)
      ∧ PieceStore.deletePiece id st = (.error notInitMsg, st)
      ∧ PieceStore.queryPieces embedFn runQuery q options st =
          (.error notInitMsg, st) := by
  intro st hst uuid embedFn runQuery content tags id content? tags? q options
  refine ⟨?_, ?_, ?_, ?_, ?_⟩ <;>
    simp [PieceStore.addPiece, PieceStore.getPiece, PieceStore.updatePiece,
      PieceStore.deletePiece, PieceStore.queryPieces, PieceStore.getCollection,
      hst]

theorem claim_C7_uninitialized_guard_witness :
    PieceStore.addPiece (fun _ => "i") (fun _ => .ok [1]) "c" []
        { collection := none, uuidCount := 0, embedCalls := 0,
          createCalls := 0 } =
      (.error notInitMsg,
       { collection := none, uuidCount := 0, embedCalls := 0,
         createCalls := 0 })
    ∧ PieceStore.queryPieces (fun _ => .ok [1]) (fun _ _ _ => .ok ⟨[], [], [], none⟩)
        "q" {} { collection := none, uuidCount := 0, embedCalls := 0,
                 createCalls := 0 } =
      (.error notInitMsg,
       { collection := none, uuidCount := 0, embedCalls := 0,
         createCalls := 0 }) :=
  ⟨(claim_C7_uninitialized_guard _ rfl (fun _ => "i") (fun _ => .ok [1])
      (fun _ _ _ => .ok ⟨[], [], [], none⟩) "c" [] "x" none none "q" {}).1,
   (claim_C7_uninitialized_guard _ rfl (fun _ => "i") (fun _ => .ok [1])
      (fun _ _ _ => .ok ⟨[], [], [], none⟩) "c" [] "x" none none "q" {}).2.2.2.2⟩

/-- C8: a failed init propagates its error, leaves the collection handle as
it was (an uninitialized store stays uninitialized), issues exactly one
creation call (no internal retry loop), and a subsequent init may succeed;
the adapter guard likewise clears its cached promise on failure so the
next call retries, and caches success. -/
theorem claim_C8_init_failure_reset :
    (∀ (st : StoreState) (e : String),
      PieceStore.init (.error e) st =
        (.error e, { st with createCalls := st.createCalls + 1 }))
    ∧ (∀ (st : StoreState) (e : String),
        (PieceStore.init (.error e) st).2.collection = st.collection)
    ∧ (∀ (st : StoreState) (e : String) (col : ChromaCollection),
        st.collection = none →
        (PieceStore.init (.error e) st).2.collection = none
        ∧ PieceStore.init (.ok col) (PieceStore.init (.error e) st).2 =
            (.ok (), { st with
                       createCalls := st.createCalls + 2
                       collection := some col }))
    ∧ (∀ (att : Nat → Except String Unit) (e : String),
        att 0 = .error e → att 1 = .ok () →
        ensureStoreInitialized att { initOutcome := none, createCalls := 0 } =
          (.error e, { initOutcome := none, createCalls := 1 })
        ∧ ensureStoreInitialized att
            (ensureStoreInitialized att
              { initOutcome := none, createCalls := 0 }).2 =
          (.ok (), { initOutcome := some (.ok ()), createCalls := 2 })) := by
  refine ⟨?_, ?_, ?_, ?_⟩
  · intro st e; rfl
  · intro st e; rfl
  · intro st e col hst
    constructor
    · simpa using hst
    · simp [PieceStore.init]
  · intro att e h0 h1
    constructor
    · simp [ensureStoreInitialized, h0]
    · simp [ensureStoreInitialized, h0, h1]

theorem claim_C8_init_failure_reset_witness :
    ((PieceStore.init (.error "ChromaDB unreachable")
        { collection := none, uuidCount := 0, embedCalls := 0,
          createCalls := 0 }).2.collection = none
      ∧ PieceStore.init (.ok [])
          (PieceStore.init (.error "ChromaDB unreachable")
            { collection := none, uuidCount := 0, embedCalls := 0,
              createCalls := 0 }).2 =
        (.ok (), { collection := some [], uuidCount := 0, embedCalls := 0,
                   createCalls := 2 }))
    ∧ (ensureStoreInitialized
          (fun n => if n = 0 then .error "down" else .ok ())
          { initOutcome := none, createCalls := 0 } =
        (.error "down", { initOutcome := none, createCalls := 1 })
      ∧ ensureStoreInitialized
          (fun n => if n = 0 then .error "down" else .ok ())
          (ensureStoreInitialized
            (fun n => if n = 0 then .error "down" else .ok ())
            { initOutcome := none, createCalls := 0 }).2 =
        (.ok (), { initOutcome := some (.ok ()), createCalls := 2 })) :=
  ⟨claim_C8_init_failure_reset.2.2.1
     { collection := none, uuidCount := 0, embedCalls := 0, createCalls := 0 }
     "ChromaDB unreachable" [] rfl,
   claim_C8_init_failure_reset.2.2.2
     (fun n => if n = 0 then .error "down" else .ok ()) "down" rfl rfl⟩

/-- C9: addPiece draws a fresh id, embeds the content, persists exactly
(id, embedding, content, encodeTags tags) and returns the full Piece; on
an embedding failure the error propagates unchanged and nothing is
persisted; ids of consecutive adds differ whenever the uuid supply does. -/
theorem claim_C9_addPiece :
    ∀ (uuid : Nat → String) (embedFn : String → Except String (List ℚ))
      (st : StoreState) (col : ChromaCollection) (content : String)
      (tags : List JStr),
      st.collection = some col →
      (∀ e, embedFn content = .error e →
        PieceStore.addPiece uuid embedFn content tags st =
          (.error e, { st with
            uuidCount := st.uuidCount + 1
            embedCalls := st.embedCalls + 1 }))
      ∧ (∀ emb, embedFn content = .ok emb →
          PieceStore.addPiece uuid embedFn content tags st =
            (.ok { id := uuid st.uuidCount, content := content, tags := tags },
             { st with
               uuidCount := st.uuidCount + 1
               embedCalls := st.embedCalls + 1
               collection := some (col ++
                 [(uuid st.uuidCount,
                   { embedding := emb, document := some content,
                     meta := some { tags := some (encodeTags tags) } })]) }))
      ∧ (uuid (st.uuidCount + 1) ≠ uuid st.uuidCount →
          ∀ emb emb2 content2 tags2,
          embedFn content = .ok emb → embedFn content2 = .ok emb2 →
          (PieceStore.addPiece uuid embedFn content2 tags2
              (PieceStore.addPiece uuid embedFn content tags st).2).1.toOption.map
              Piece.id ≠
            (PieceStore.addPiece uuid embedFn content tags st).1.toOption.map
              Piece.id) := by
  intro uuid embedFn st col content tags hst
  refine ⟨?_, ?_, ?_⟩
  · intro e he
    simp [PieceStore.addPiece, PieceStore.getCollection, hst, he]
  · intro emb hemb
    simp [PieceStore.addPiece, PieceStore.getCollection, hst, hemb]
  · intro hne emb emb2 content2 tags2 hemb hemb2
    simp [PieceStore.addPiece, PieceStore.getCollection, hst, hemb, hemb2,
      Except.toOption, hne]

theorem claim_C9_addPiece_witness :
    PieceStore.addPiece (fun n => toString n)
        (fun s => if s = "bad" then .error "Ollama down" else .ok [1, 2])
        "bad" [['t']]
        { collection := some [], uuidCount := 0, embedCalls := 0,
          createCalls := 0 } =
      (.error "Ollama down",
       { collection := some [], uuidCount := 1, embedCalls := 1,
         createCalls := 0 })
    ∧ PieceStore.addPiece (fun n => toString n)
        (fun s => if s = "bad" then .error "Ollama down" else .ok [1, 2])
        "Hello world" [['t']]
        { collection := some [], uuidCount := 0, embedCalls := 0,
          createCalls := 0 } =
      (.ok { id := "0", content := "Hello world", tags := [['t']] },
       { collection := some
           [("0", { embedding := [1, 2], document := some "Hello world",
                    meta := some { tags := some (encodeTags [['t']]) } })],
         uuidCount := 1, embedCalls := 1, createCalls := 0 }) := by
  constructor
  · exact (claim_C9_addPiece (fun n => toString n)
      (fun s => if s = "bad" then .error "Ollama down" else .ok [1, 2])
      { collection := some [], uuidCount := 0, embedCalls := 0,
        createCalls := 0 } [] "bad" [['t']] rfl).1 "Ollama down" rfl
  · have h := (claim_C9_addPiece (fun n => toString n)
      (fun s => if s = "bad" then .error "Ollama down" else .ok [1, 2])
      { collection := some [], uuidCount := 0, embedCalls := 0,
        createCalls := 0 } [] "Hello world" [['t']] rfl).2.1 [1, 2] rfl
    simpa using h

/-- C10: addPiece returns the given tags verbatim while getPiece of the
same id returns the decode of their encoding; the two agree exactly for
nonempty comma-free tags; an empty tag is dropped on read-back and a tag
holding a comma splits. -/
theorem claim_C10_tag_readback :
    (∀ (uuid : Nat → String) (embedFn : String → Except String (List ℚ))
       (st : StoreState) (col : ChromaCollection) (content : String)
       (tags : List JStr) (emb : List ℚ),
       st.collection = some col → embedFn content = .ok emb →
       findRec col (uuid st.uuidCount) = none →
       (PieceStore.addPiece uuid embedFn content tags st).1 =
         .ok { id := uuid st.uuidCount, content := content, tags := tags }
       ∧ (PieceStore.getPiece (uuid st.uuidCount)
             (PieceStore.addPiece uuid embedFn content tags st).2).1 =
           .ok (some { id := uuid st.uuidCount, content := content,
                       tags := decodeTags (encodeTags tags) }))
    ∧ (∀ tags : List JStr,
        decodeTags (encodeTags tags) = tags ↔ ∀ t ∈ tags, t ≠ [] ∧ ',' ∉ t)
    ∧ decodeTags (encodeTags [[]]) = []
    ∧ decodeTags (encodeTags ["a,b".toList]) = ["a".toList, "b".toList] := by
  refine ⟨?_, ?_, by decide, by decide⟩
  · intro uuid embedFn st col content tags emb hst hemb hfresh
    constructor
    · simp [PieceStore.addPiece, PieceStore.getCollection, hst, hemb]
    · simp only [PieceStore.addPiece, PieceStore.getCollection, hst, hemb]
      simp only [PieceStore.getPiece, PieceStore.getCollection]
      rw [findRec_append_none hfresh]
      simp [findRec]
  · intro tags
    constructor
    · intro h t ht
      exact mem_decodeTags (encodeTags tags) t (by rw [h]; exact ht)
    · exact decodeTags_encodeTags tags

theorem claim_C10_tag_readback_witness :
    (PieceStore.addPiece (fun _ => "id0") (fun _ => .ok [1]) "c"
        [['a'], []] { collection := some [], uuidCount := 0, embedCalls := 0,
                      createCalls := 0 }).1 =
      .ok { id := "id0", content := "c", tags := [['a'], []] }
    ∧ (PieceStore.getPiece "id0"
          (PieceStore.addPiece (fun _ => "id0") (fun _ => .ok [1]) "c"
            [['a'], []] { collection := some [], uuidCount := 0,
                          embedCalls := 0, createCalls := 0 }).2).1 =
        .ok (some { id := "id0", content := "c",
                    tags := decodeTags (encodeTags [['a'], []]) }) :=
  claim_C10_tag_readback.1 (fun _ => "id0") (fun _ => .ok [1]) _ [] "c"
    [['a'], []] [1] rfl rfl rfl
